import Mathlib

/-!
Verification of the virtual try-on application, a Next.js app with one API
route (`src/app/api/tryon/route.ts`) and one client page
(`src/app/page.tsx`).  The definitions below are a shallow embedding of
the two TypeScript files: JavaScript nullable/optional string values are
modelled as `Option String`, JavaScript truthiness of a string (`s || d`,
`if (s)`) treats the empty string as falsy, byte buffers are lists of
naturals below 256, and the asynchronous handlers are modelled as pure
state-transition functions parametrised by the outcome of their single
awaited external call.
-/

namespace Tryon

/-- JavaScript `s || d` for a string `s`: the empty string is falsy. -/
def jsOr (s : String) (d : String) : String := if s = "" then d else s

/-- JavaScript `x || d` where `x` is a possibly-absent string field:
`undefined`/`null` and `""` both fall through to the default. -/
def jsOrOpt (s : Option String) (d : String) : String :=
  match s with
  | some t => jsOr t d
  | none => d

/-- JavaScript truthiness filter on an optional string: keeps `some t`
only when `t` is non-empty (`undefined`, `null` and `""` are falsy). -/
def jsStr? (s : Option String) : Option String :=
  match s with
  | some t => if t = "" then none else some t
  | none => none

/-! ## Base64 (model of the platform `btoa` and RFC 4648)

`route.ts` line 12 calls the host function `btoa` on a binary string.
`btoa` interprets each UTF-16 code unit (which must be `< 256`) as a byte
and produces the RFC 4648 base64 encoding of the byte sequence. -/

/-- The RFC 4648 base64 alphabet. -/
def base64Alphabet : List Char :=
  "ABCDEFGHIJKLMNOPQRSTUVWXYZabcdefghijklmnopqrstuvwxyz0123456789+/".toList

/-- Character for a six-bit group. -/
def sextetChar (n : Nat) : Char := base64Alphabet.getD n 'A'

/-- Index of a base64 character in the alphabet. -/
def sextetOf (c : Char) : Nat := base64Alphabet.indexOf c

/-- RFC 4648 base64 encoding of a byte list, three bytes to four
characters, with `=` padding. -/
def base64EncodeChars : List Nat → List Char
  | b0 :: b1 :: b2 :: rest =>
      sextetChar (b0 / 4) ::
      sextetChar ((b0 % 4) * 16 + b1 / 16) ::
      sextetChar ((b1 % 16) * 4 + b2 / 64) ::
      sextetChar (b2 % 64) :: base64EncodeChars rest
  | [b0, b1] =>
      [sextetChar (b0 / 4), sextetChar ((b0 % 4) * 16 + b1 / 16),
       sextetChar ((b1 % 16) * 4), '=']
  | [b0] =>
      [sextetChar (b0 / 4), sextetChar ((b0 % 4) * 16), '=', '=']
  | [] => []

/-- RFC 4648 base64 decoding, four characters to three bytes, honouring
`=` padding. -/
def base64DecodeChars : List Char → List Nat
  | c0 :: c1 :: c2 :: c3 :: rest =>
      let s0 := sextetOf c0
      let s1 := sextetOf c1
      if c2 = '=' then
        [s0 * 4 + s1 / 16]
      else
        let s2 := sextetOf c2
        if c3 = '=' then
          [s0 * 4 + s1 / 16, (s1 % 16) * 16 + s2 / 4]
        else
          (s0 * 4 + s1 / 16) :: ((s1 % 16) * 16 + s2 / 4) ::
            ((s2 % 4) * 64 + sextetOf c3) :: base64DecodeChars rest
  | _ => []

/-- Reference RFC 4648 base64 encoder on byte lists, producing a string. -/
def base64Encode (bytes : List Nat) : String := String.mk (base64EncodeChars bytes)

/-- Reference RFC 4648 base64 decoder from a string back to bytes. -/
def base64Decode (s : String) : List Nat := base64DecodeChars s.toList

/-- Model of the platform `btoa`: each code unit of the string is taken
as a byte and the bytes are base64-encoded. -/
def jsBtoa (s : String) : String :=
  String.mk (base64EncodeChars (s.toList.map Char.toNat))

/-- `arrayBufferToBase64` from `route.ts` lines 5-13: builds a binary
string with one `String.fromCharCode` character per byte of the buffer,
then applies `btoa`. -/
def arrayBufferToBase64 (buffer : List Nat) : String :=
  jsBtoa (String.mk (buffer.map Char.ofNat))

/-! ## Data model shared by request and response -/

/-- An inline-data payload of a content part: declared MIME type and
base64 data, either of which the API may omit. -/
structure InlineData where
  mimeType : Option String
  data : Option String
  deriving DecidableEq, Repr

/-- A content part: carries text, inline data, neither, or both.  The
route builds parts with exactly one field set and reads response parts by
checking `inlineData` first, then `text`. -/
structure Part where
  text : Option String
  inlineData : Option InlineData
  deriving DecidableEq, Repr

/-- A text part as built in `route.ts` lines 114, 121 and 128. -/
def mkTextPart (t : String) : Part := ⟨some t, none⟩

/-- An inline-data part as built in `route.ts` lines 116-119 and 123-126. -/
def mkInlinePart (mime : String) (data : String) : Part :=
  ⟨none, some ⟨some mime, some data⟩⟩

/-- One request content block (`role` plus parts), `route.ts` lines 111-130. -/
structure Content where
  role : String
  parts : List Part
  deriving DecidableEq, Repr

/-- The request sent to `ai.models.generateContent` (`route.ts` lines
134-143); the fixed generation parameters carry no verified property and
are omitted. -/
structure GeminiRequest where
  model : String
  contents : List Content
  deriving DecidableEq, Repr

/-- The `content` object of a response candidate; its `parts` may be absent. -/
structure CandContent where
  parts : Option (List Part)
  deriving DecidableEq, Repr

/-- One response candidate; its `content` may be absent. -/
structure Candidate where
  content : Option CandContent
  deriving DecidableEq, Repr

/-- The `promptFeedback` object of a response. -/
structure PromptFeedback where
  blockReason : Option String
  deriving DecidableEq, Repr

/-- The upstream model response as read by `route.ts` lines 160-190. -/
structure GeminiResponse where
  candidates : Option (List Candidate)
  promptFeedback : Option PromptFeedback
  deriving DecidableEq, Repr

/-- The model identifier, `route.ts` line 23. -/
def MODEL_ID : String := "gemini-2.0-flash-exp-image-generation"

/-- Apostrophe character, used to spell string literals of the source. -/
def apos : String := String.mk [Char.ofNat 39]

/-- Text label preceding the person image, `route.ts` line 114. -/
def personLabel : String :=
  "PERSON IMAGE (preserve this person" ++ apos ++ "s identity exactly):"

/-- Text label preceding the clothing image, `route.ts` line 121. -/
def clothingLabel : String := "CLOTHING IMAGE (extract only the clothing item):"

/-- Stands for the fixed instruction block of `route.ts` lines 52-92
(`improvedPrompt`).  Its exact wording is a constant never inspected by
the handler, so it is abbreviated here. -/
def improvedPrompt : String :=
  "VIRTUAL TRY-ON TASK (fixed natural-language instruction block)"

/-! ## Server: response extraction (`route.ts` lines 155-195) -/

/-- The three mutable locals of the extraction loop, with their initial
values from `route.ts` lines 155-157. -/
structure ExtractState where
  textResponse : Option String
  imageData : Option String
  imageMimeType : String
  deriving DecidableEq, Repr

/-- Initial extraction state: `textResponse = null`, `imageData = null`,
`imageMimeType = "image/png"`. -/
def initExtract : ExtractState := ⟨none, none, "image/png"⟩

/-- One iteration of the `for (const part of parts)` loop, `route.ts`
lines 165-176: an inline-data part overwrites `imageData` and
`imageMimeType`; otherwise a part with truthy text overwrites
`textResponse`. -/
def extractStep (s : ExtractState) (p : Part) : ExtractState :=
  match p.inlineData with
  | some idata =>
      { s with imageData := idata.data,
               imageMimeType := jsOrOpt idata.mimeType "image/png" }
  | none =>
      match p.text with
      | some t => if t = "" then s else { s with textResponse := some t }
      | none => s

/-- The whole extraction loop over the parts of the first candidate. -/
def extractParts (ps : List Part) : ExtractState :=
  ps.foldl extractStep initExtract

/-- Outcome of the route: a 200 JSON body `{ image, description }` or an
error status with `{ error, details? }`. -/
inductive ApiResult where
  | ok (image : Option String) (description : String)
  | err (status : Nat) (error : String) (details : Option String)
  deriving DecidableEq, Repr

/-- Response handling of `route.ts` lines 155-195 together with the
`catch` of lines 197-206 that converts the `throw`s of lines 185 and 189
into a 500 JSON error. -/
def processResponse (resp : GeminiResponse) : ApiResult :=
  match resp.candidates with
  | some (c :: _) =>
      let st :=
        match c.content with
        | some content =>
            match content.parts with
            | some ps => extractParts ps
            | none => initExtract
        | none => initExtract
      .ok (match jsStr? st.imageData with
           | some d => some ("data:" ++ st.imageMimeType ++ ";base64," ++ d)
           | none => none)
          (jsOrOpt st.textResponse "AI description not available.")
  | _ =>
      match jsStr? (resp.promptFeedback.bind PromptFeedback.blockReason) with
      | some reason =>
          .err 500 "Failed to process virtual try-on request"
            (some ("Content generation failed due to safety settings: " ++ reason))
      | none =>
          .err 500 "Failed to process virtual try-on request"
            (some "Received an unexpected or empty response from the API.")

/-! ## Server: the POST handler (`route.ts` lines 25-207) -/

/-- An uploaded file: declared MIME type (possibly `""`) and content bytes. -/
structure FileModel where
  type : String
  bytes : List Nat
  deriving DecidableEq, Repr

/-- `File.size`: the byte length of the file. -/
def FileModel.size (f : FileModel) : Nat := f.bytes.length

/-- The parsed multipart form: each named file field may be absent. -/
structure FormDataModel where
  userImage : Option FileModel
  clothingImage : Option FileModel
  deriving DecidableEq, Repr

/-- Outcome of the single awaited `generateContent` call: a thrown value
(with whether it was an `Error` and its message) or a response object. -/
inductive UpstreamOutcome where
  | failure (isError : Bool) (msg : String)
  | success (resp : GeminiResponse)
  deriving DecidableEq, Repr

/-- The request assembled in `route.ts` lines 94-131: both files are
base64-encoded, empty MIME types default to `image/jpeg` (person) and
`image/png` (clothing), and the five parts are laid out in fixed order. -/
def buildRequest (userFile clothingFile : FileModel) : GeminiRequest :=
  let userImageBase64 := arrayBufferToBase64 userFile.bytes
  let userImageMimeType := jsOr userFile.type "image/jpeg"
  let clothingImageBase64 := arrayBufferToBase64 clothingFile.bytes
  let clothingImageMimeType := jsOr clothingFile.type "image/png"
  ⟨MODEL_ID,
   [⟨"user",
     [mkTextPart personLabel,
      mkInlinePart userImageMimeType userImageBase64,
      mkTextPart clothingLabel,
      mkInlinePart clothingImageMimeType clothingImageBase64,
      mkTextPart improvedPrompt]⟩]⟩

/-- The POST handler, `route.ts` lines 25-207, parametrised by the
behaviour of the external model.  The input is the multipart parse
outcome (`Except` error message on failure).  The second component of
the result records the request sent to the external model, `none` when
the model was never called.  A thrown upstream failure is rewrapped by
lines 147-153 and then answered by the catch of lines 197-206. -/
def POST (upstream : GeminiRequest → UpstreamOutcome)
    (body : Except String FormDataModel) : ApiResult × Option GeminiRequest :=
  match body with
  | .error msg =>
      (.err 400 "Invalid request body: Failed to parse FormData." (some msg), none)
  | .ok form =>
      match form.userImage, form.clothingImage with
      | some userFile, some clothingFile =>
          let geminiReq := buildRequest userFile clothingFile
          match upstream geminiReq with
          | .failure isError msg =>
              (.err 500 "Failed to process virtual try-on request"
                 (some (if isError then "Failed during API call: " ++ msg
                        else "An unknown error occurred during the API call")),
               some geminiReq)
          | .success resp => (processResponse resp, some geminiReq)
      | _, _ =>
          (.err 400 "Both userImage and clothingImage files are required" none, none)

/-! ## Client: the form controller (`page.tsx`) -/

/-- The seven `useState` hooks of `TryOnPage`, `page.tsx` lines 6-12. -/
structure ClientState where
  userImage : Option FileModel
  clothingImage : Option FileModel
  userImagePreview : Option String
  clothingImagePreview : Option String
  resultImageUrl : Option String
  isLoading : Bool
  error : Option String
  deriving DecidableEq, Repr

/-- The state with every hook at its initial value. -/
def emptyState : ClientState := ⟨none, none, none, none, none, false, none⟩

/-- Which image slot a file input feeds (`handleFileChange` receives the
corresponding setter pair). -/
inductive Slot where
  | user
  | clothing
  deriving DecidableEq, Repr

/-- The stored file of a slot. -/
def slotImage (slot : Slot) (st : ClientState) : Option FileModel :=
  match slot with
  | .user => st.userImage
  | .clothing => st.clothingImage

/-- The preview data-URL of a slot. -/
def slotPreview (slot : Slot) (st : ClientState) : Option String :=
  match slot with
  | .user => st.userImagePreview
  | .clothing => st.clothingImagePreview

/-- Model of the host `FileReader.readAsDataURL` result for a file: a
data URL with the file content base64-encoded (an empty declared type
renders as `application/octet-stream`). -/
def readAsDataURL (f : FileModel) : String :=
  "data:" ++ jsOr f.type "application/octet-stream" ++ ";base64," ++
    base64Encode f.bytes

/-- `handleFileChange`, `page.tsx` lines 18-43, for one slot: a selected
file larger than `10 * 1024 * 1024` bytes only sets the error message; a
file within the limit is stored, its preview data-URL is produced, and
the error is cleared; a cleared input (`file` absent) empties the slot. -/
def handleFileChange (slot : Slot) (file : Option FileModel)
    (st : ClientState) : ClientState :=
  match file with
  | some f =>
      if f.size > 10 * 1024 * 1024 then
        { st with
            error := some "File size too large. Please use images smaller than 10MB." }
      else
        let st1 :=
          match slot with
          | .user => { st with userImage := some f,
                               userImagePreview := some (readAsDataURL f) }
          | .clothing => { st with clothingImage := some f,
                                   clothingImagePreview := some (readAsDataURL f) }
        { st1 with error := none }
  | none =>
      match slot with
      | .user => { st with userImage := none, userImagePreview := none }
      | .clothing => { st with clothingImage := none, clothingImagePreview := none }

/-- Outcome of the awaited `fetch` + `response.json()` in `handleSubmit`:
either a thrown value (network or parse failure, with whether it was an
`Error` and its message), or a settled response with its `ok` flag,
status text and the `error`/`image` fields of the parsed JSON body. -/
inductive FetchOutcome where
  | thrown (isError : Bool) (msg : String)
  | response (ok : Bool) (statusText : String)
      (errorField : Option String) (image : Option String)
  deriving DecidableEq, Repr

/-- `handleSubmit`, `page.tsx` lines 45-89, as a function of the fetch
outcome.  The second component records the file pair submitted to
`/api/tryon`, `none` when no request was issued.  Missing either file
only sets the validation error (lines 47-50); otherwise loading is set,
error and result are cleared, the request is issued, the response is
dispatched by lines 69-79, thrown values are caught by lines 81-85, and
the `finally` of lines 86-88 clears the loading flag. -/
def handleSubmit (outcome : FetchOutcome) (st : ClientState) :
    ClientState × Option (FileModel × FileModel) :=
  match st.userImage, st.clothingImage with
  | some u, some c =>
      let base := { st with isLoading := true, error := none,
                            resultImageUrl := none }
      let after :=
        match outcome with
        | .thrown isError msg =>
            { base with
                error := some (if isError then msg
                               else "An error occurred during image generation."),
                resultImageUrl := none }
        | .response ok statusText errorField image =>
            if ok then
              match jsStr? image with
              | some img => { base with resultImageUrl := some img }
              | none =>
                  { base with
                      error := some ("API did not return a generated image. " ++
                        "This might be due to safety filters or processing issues."),
                      resultImageUrl := none }
            else
              { base with
                  error := some (jsOrOpt errorField ("API Error: " ++ statusText)),
                  resultImageUrl := none }
      ({ after with isLoading := false }, some (u, c))
  | _, _ =>
      ({ st with
           error := some "Please upload both your photo and a clothing item image." },
       none)

/-! ## Derived observations used by the statements -/

/-- The inline-data payload of a part, when present. -/
def inlineOf (p : Part) : Option InlineData := p.inlineData

/-- The text the extraction loop would read from a part: `none` when the
part carries inline data (which takes precedence in the loop) or when
its text is absent or empty. -/
def textCandidate (p : Part) : Option String :=
  match p.inlineData with
  | some _ => none
  | none =>
      match p.text with
      | some t => if t = "" then none else some t
      | none => none

/-- The last part observation produced by `f`, scanning left to right. -/
def lastOf (f : Part → Option α) : List Part → Option α
  | [] => none
  | p :: ps =>
      match lastOf f ps with
      | some x => some x
      | none => f p

/-- The last inline-data payload of a parts list, if any. -/
def lastInline (ps : List Part) : Option InlineData := lastOf inlineOf ps

/-- The last readable text of a parts list, if any. -/
def lastText (ps : List Part) : Option String := lastOf textCandidate ps

/-- The MIME type forwarded for the person image: part index 1 of the
single content block of an assembled request. -/
def requestUserMime (r : GeminiRequest) : Option String :=
  ((r.contents.head?.bind fun ct => ct.parts.get? 1).bind
    Part.inlineData).bind InlineData.mimeType

/-- The MIME type forwarded for the clothing image: part index 3 of the
single content block of an assembled request. -/
def requestClothingMime (r : GeminiRequest) : Option String :=
  ((r.contents.head?.bind fun ct => ct.parts.get? 3).bind
    Part.inlineData).bind InlineData.mimeType

/-! ## Helper lemmas -/

theorem lastOf_of_filterMap_nil (f : Part → Option α) (ps : List Part)
    (h : ps.filterMap f = []) : lastOf f ps = none := by
  induction ps with
  | nil => rfl
  | cons p ps ih =>
      rw [List.filterMap_cons] at h
      cases hp : f p with
      | none =>
          rw [hp] at h
          simp [lastOf, ih h, hp]
      | some b => rw [hp] at h; simp at h

theorem lastOf_of_filterMap_singleton (f : Part → Option α) (ps : List Part)
    (x : α) (h : ps.filterMap f = [x]) : lastOf f ps = some x := by
  induction ps with
  | nil => simp at h
  | cons p ps ih =>
      rw [List.filterMap_cons] at h
      cases hp : f p with
      | none =>
          rw [hp] at h
          simp [lastOf, ih h]
      | some b =>
          rw [hp] at h
          have hb : b = x ∧ ps.filterMap f = [] := by
            constructor
            · exact (List.cons_eq_cons.mp h).1
            · exact (List.cons_eq_cons.mp h).2
          simp [lastOf, lastOf_of_filterMap_nil f ps hb.2, hp, hb.1]

theorem foldl_extractStep_imageData (ps : List Part) : ∀ s : ExtractState,
    (ps.foldl extractStep s).imageData =
      (match lastOf inlineOf ps with
       | some idata => idata.data
       | none => s.imageData) := by
  induction ps with
  | nil => intro s; rfl
  | cons p ps ih =>
      intro s
      rw [List.foldl_cons]
      have h := ih (extractStep s p)
      cases hl : lastOf inlineOf ps with
      | some idata => simp [lastOf, hl] at h ⊢; exact h
      | none =>
          simp [lastOf, hl] at h ⊢
          rw [h]
          cases hp : p.inlineData with
          | some idata => simp [extractStep, inlineOf, hp]
          | none =>
              simp only [extractStep, inlineOf, hp]
              cases p.text with
              | none => rfl
              | some t =>
                  by_cases ht : t = "" <;> simp [ht]

theorem foldl_extractStep_mime (ps : List Part) : ∀ s : ExtractState,
    (ps.foldl extractStep s).imageMimeType =
      (match lastOf inlineOf ps with
       | some idata => jsOrOpt idata.mimeType "image/png"
       | none => s.imageMimeType) := by
  induction ps with
  | nil => intro s; rfl
  | cons p ps ih =>
      intro s
      rw [List.foldl_cons]
      have h := ih (extractStep s p)
      cases hl : lastOf inlineOf ps with
      | some idata => simp [lastOf, hl] at h ⊢; exact h
      | none =>
          simp [lastOf, hl] at h ⊢
          rw [h]
          cases hp : p.inlineData with
          | some idata => simp [extractStep, inlineOf, hp]
          | none =>
              simp only [extractStep, inlineOf, hp]
              cases p.text with
              | none => rfl
              | some t =>
                  by_cases ht : t = "" <;> simp [ht]

theorem foldl_extractStep_text (ps : List Part) : ∀ s : ExtractState,
    (ps.foldl extractStep s).textResponse =
      (match lastOf textCandidate ps with
       | some t => some t
       | none => s.textResponse) := by
  induction ps with
  | nil => intro s; rfl
  | cons p ps ih =>
      intro s
      rw [List.foldl_cons]
      have h := ih (extractStep s p)
      cases hl : lastOf textCandidate ps with
      | some t => simp [lastOf, hl] at h ⊢; exact h
      | none =>
          simp [lastOf, hl] at h ⊢
          rw [h]
          cases hp : p.inlineData with
          | some idata => simp [extractStep, textCandidate, hp]
          | none =>
              simp only [extractStep, textCandidate, hp]
              cases p.text with
              | none => rfl
              | some t =>
                  by_cases ht : t = "" <;> simp [ht]

/-! ## Claim theorems -/

/-- C1 (counterexample): with two inline-data segments in the first
candidate, the extraction loop keeps the SECOND one, not the first, and
with two text segments it keeps the second text; the claim that the
first segments are kept and later ones do not replace them is false. -/
theorem extract_second_inline_overwrites_first :
    (extractParts [mkInlinePart "image/png" "FIRST",
                   mkInlinePart "image/jpeg" "SECOND"]).imageData = some "SECOND" ∧
    (extractParts [mkInlinePart "image/png" "FIRST",
                   mkInlinePart "image/jpeg" "SECOND"]).imageData ≠ some "FIRST" ∧
    (extractParts [mkTextPart "text one", mkTextPart "text two"]).textResponse =
      some "text two" := by
  refine ⟨rfl, by decide, rfl⟩

/-- C1 (amended): the extraction loop keeps the LAST inline-data segment
of the first candidate (its data and its MIME type, the latter defaulting
to `image/png` when absent or empty) and the LAST non-empty text segment
of a part that carries no inline data; earlier segments are overwritten. -/
theorem extract_takes_last_segments (ps : List Part) :
    (extractParts ps).imageData = (lastInline ps).bind InlineData.data ∧
    (extractParts ps).imageMimeType =
      (match lastInline ps with
       | some idata => jsOrOpt idata.mimeType "image/png"
       | none => "image/png") ∧
    (extractParts ps).textResponse = lastText ps := by
  unfold extractParts lastInline lastText
  refine ⟨?_, ?_, ?_⟩
  · rw [foldl_extractStep_imageData]
    cases lastOf inlineOf ps <;> rfl
  · rw [foldl_extractStep_mime]
    cases lastOf inlineOf ps <;> rfl
  · rw [foldl_extractStep_text]
    cases lastOf textCandidate ps <;> rfl

theorem textCandidate_ne_empty {p : Part} {t : String}
    (h : textCandidate p = some t) : t ≠ "" := by
  rcases p with ⟨pt, pin⟩
  cases pin with
  | some _ => simp [textCandidate] at h
  | none =>
      cases pt with
      | none => simp [textCandidate] at h
      | some u =>
          simp only [textCandidate] at h
          by_cases hu : u = ""
          · simp [hu] at h
          · simp [hu] at h
            subst h
            exact hu

/-- C3: with zero candidates (the field absent or an empty array) and a
non-empty block reason, the route answers 500 and the error details
contain that reason; with no (or an empty) block reason it answers 500
with the generic unexpected-response message. -/
theorem processResponse_no_candidates_errors (resp : GeminiResponse)
    (hc : resp.candidates = none ∨ resp.candidates = some []) :
    (∀ r, r ≠ "" →
        resp.promptFeedback.bind PromptFeedback.blockReason = some r →
        processResponse resp =
          .err 500 "Failed to process virtual try-on request"
            (some ("Content generation failed due to safety settings: " ++ r))) ∧
    (resp.promptFeedback.bind PromptFeedback.blockReason = none ∨
        resp.promptFeedback.bind PromptFeedback.blockReason = some "" →
        processResponse resp =
          .err 500 "Failed to process virtual try-on request"
            (some "Received an unexpected or empty response from the API.")) := by
  constructor
  · intro r hr hb
    rcases hc with hc | hc <;> simp [processResponse, hc, hb, jsStr?, hr]
  · intro hb
    rcases hc with hc | hc <;> rcases hb with hb | hb <;>
      simp [processResponse, hc, hb, jsStr?]

/-- Witness for C3 at a concrete blocked response. -/
theorem processResponse_no_candidates_errors_witness :
    processResponse ⟨some [], some ⟨some "SAFETY"⟩⟩ =
      .err 500 "Failed to process virtual try-on request"
        (some ("Content generation failed due to safety settings: " ++ "SAFETY")) :=
  (processResponse_no_candidates_errors ⟨some [], some ⟨some "SAFETY"⟩⟩
    (Or.inr rfl)).1 "SAFETY" (by decide) rfl

/-- C4: when the parts of the first candidate contain exactly one
inline-data segment (MIME `m`, non-empty data `d`) and exactly one
readable text segment `t`, the route answers 200 with `image` equal to
`data:<m>;base64,<d>` (where `m` defaults to `image/png` when absent or
empty) and `description` equal to `t`; with no inline-data segment the
`image` field is `null`; with no readable text segment the description
is the placeholder. -/
theorem processResponse_success_extraction (resp : GeminiResponse)
    (c : Candidate) (rest : List Candidate) (content : CandContent)
    (ps : List Part)
    (hc : resp.candidates = some (c :: rest))
    (hct : c.content = some content)
    (hps : content.parts = some ps) :
    (∀ m d t, ps.filterMap inlineOf = [⟨m, some d⟩] → d ≠ "" →
        ps.filterMap textCandidate = [t] →
        processResponse resp =
          .ok (some ("data:" ++ jsOrOpt m "image/png" ++ ";base64," ++ d)) t) ∧
    (ps.filterMap inlineOf = [] →
        ∃ desc, processResponse resp = .ok none desc) ∧
    (ps.filterMap textCandidate = [] →
        ∃ img, processResponse resp = .ok img "AI description not available.") := by
  have h1 := foldl_extractStep_imageData ps initExtract
  have h2 := foldl_extractStep_mime ps initExtract
  have h3 := foldl_extractStep_text ps initExtract
  refine ⟨?_, ?_, ?_⟩
  · intro m d t hin hd htx
    have hli : lastOf inlineOf ps = some ⟨m, some d⟩ :=
      lastOf_of_filterMap_singleton _ _ _ hin
    have hlt : lastOf textCandidate ps = some t :=
      lastOf_of_filterMap_singleton _ _ _ htx
    have ht : t ≠ "" := by
      have hmem : t ∈ ps.filterMap textCandidate := by rw [htx]; simp
      rcases List.mem_filterMap.mp hmem with ⟨p, _, hp⟩
      exact textCandidate_ne_empty hp
    rw [hli] at h1 h2
    rw [hlt] at h3
    simp only at h1 h2 h3
    simp [processResponse, hc, hct, hps, extractParts, h1, h2, h3, jsStr?,
      hd, jsOrOpt, jsOr, ht]
  · intro hin
    have hli : lastOf inlineOf ps = none := lastOf_of_filterMap_nil _ _ hin
    rw [hli] at h1
    have hid : (extractParts ps).imageData = none := by
      unfold extractParts
      rw [h1]
      rfl
    refine ⟨jsOrOpt (extractParts ps).textResponse
      "AI description not available.", ?_⟩
    simp [processResponse, hc, hct, hps, hid, jsStr?]
  · intro htx
    have hlt : lastOf textCandidate ps = none := lastOf_of_filterMap_nil _ _ htx
    rw [hlt] at h3
    have htr : (extractParts ps).textResponse = none := by
      unfold extractParts
      rw [h3]
      rfl
    refine ⟨(match jsStr? (extractParts ps).imageData with
             | some d => some ("data:" ++ (extractParts ps).imageMimeType ++
                 ";base64," ++ d)
             | none => none), ?_⟩
    simp [processResponse, hc, hct, hps, htr, jsOrOpt]

/-- Witness for C4 at a concrete one-image-one-text response. -/
theorem processResponse_success_extraction_witness :
    processResponse
      ⟨some [⟨some ⟨some [mkInlinePart "image/jpeg" "QUJD",
                          mkTextPart "a description"]⟩⟩], none⟩ =
      .ok (some "data:image/jpeg;base64,QUJD") "a description" :=
  (processResponse_success_extraction
    ⟨some [⟨some ⟨some [mkInlinePart "image/jpeg" "QUJD",
                        mkTextPart "a description"]⟩⟩], none⟩
    ⟨some ⟨some [mkInlinePart "image/jpeg" "QUJD", mkTextPart "a description"]⟩⟩
    []
    ⟨some [mkInlinePart "image/jpeg" "QUJD", mkTextPart "a description"]⟩
    [mkInlinePart "image/jpeg" "QUJD", mkTextPart "a description"]
    rfl rfl rfl).1
    (some "image/jpeg") "QUJD" "a description" (by decide) (by decide) (by decide)

/-- C6: an unparseable multipart body is answered 400 with an error
message; a parsed form missing either image field (or both) is answered
400; in neither case is the external model called (no upstream request
is recorded). -/
theorem POST_rejects_bad_form (upstream : GeminiRequest → UpstreamOutcome) :
    (∀ msg, POST upstream (.error msg) =
        (.err 400 "Invalid request body: Failed to parse FormData." (some msg),
         none)) ∧
    (∀ form : FormDataModel,
        form.userImage = none ∨ form.clothingImage = none →
        POST upstream (.ok form) =
          (.err 400 "Both userImage and clothingImage files are required" none,
           none)) := by
  constructor
  · intro msg
    rfl
  · intro form hform
    rcases form with ⟨fu, fc⟩
    rcases hform with h | h
    · simp only at h
      subst h
      rfl
    · simp only at h
      subst h
      cases fu <;> rfl

/-- Witness for C6 at the empty form. -/
theorem POST_rejects_bad_form_witness :
    POST (fun _ => .failure false "boom") (.ok ⟨none, none⟩) =
      (.err 400 "Both userImage and clothingImage files are required" none,
       none) :=
  (POST_rejects_bad_form (fun _ => .failure false "boom")).2 ⟨none, none⟩
    (Or.inl rfl)

/-- C9: with both files present the handler calls the external model
exactly once with the assembled request; in it, the person image is
forwarded with its declared MIME type or `image/jpeg` when the declared
type is empty, and the clothing image with its declared MIME type or
`image/png` when empty. -/
theorem POST_forwards_mime_with_defaults
    (upstream : GeminiRequest → UpstreamOutcome) (u c : FileModel) :
    (POST upstream (.ok ⟨some u, some c⟩)).2 = some (buildRequest u c) ∧
    requestUserMime (buildRequest u c) =
      some (if u.type = "" then "image/jpeg" else u.type) ∧
    requestClothingMime (buildRequest u c) =
      some (if c.type = "" then "image/png" else c.type) := by
  refine ⟨?_, ?_, ?_⟩
  · cases h : upstream (buildRequest u c) <;> simp [POST, h]
  · simp [requestUserMime, buildRequest, mkInlinePart, mkTextPart, jsOr,
      List.get?]
  · simp [requestClothingMime, buildRequest, mkInlinePart, mkTextPart, jsOr,
      List.get?]

/-- C2 (counterexample): a file of exactly 10MB (`10 * 1024 * 1024`
bytes) is NOT rejected: it is stored and the error is cleared, because
the handler only rejects sizes strictly greater than the limit. -/
theorem fileChange_accepts_exactly_10MB_file :
    (handleFileChange .user
        (some ⟨"image/png", List.replicate (10 * 1024 * 1024) 0⟩)
        emptyState).userImage =
      some ⟨"image/png", List.replicate (10 * 1024 * 1024) 0⟩ ∧
    (handleFileChange .user
        (some ⟨"image/png", List.replicate (10 * 1024 * 1024) 0⟩)
        emptyState).error = none ∧
    FileModel.size ⟨"image/png", List.replicate (10 * 1024 * 1024) 0⟩ =
      10 * 1024 * 1024 := by
  have hsize : FileModel.size
      ⟨"image/png", List.replicate (10 * 1024 * 1024) 0⟩ =
      10 * 1024 * 1024 := List.length_replicate _ _
  have hcond : ¬(FileModel.size
      ⟨"image/png", List.replicate (10 * 1024 * 1024) 0⟩ >
      10 * 1024 * 1024) := by
    rw [hsize]
    exact lt_irrefl _
  refine ⟨?_, ?_, hsize⟩ <;>
    · simp only [handleFileChange]
      rw [if_neg hcond]

/-- C2 (amended): a selected file of at most 10MB is stored in its slot,
its preview data-URL is produced and the error is cleared (result and
loading untouched); a selected file strictly over 10MB only sets the
size error, leaving the stored file, preview and everything else
unchanged. -/
theorem fileChange_size_boundary (slot : Slot) (f : FileModel)
    (st : ClientState) :
    (f.size ≤ 10 * 1024 * 1024 →
        slotImage slot (handleFileChange slot (some f) st) = some f ∧
        slotPreview slot (handleFileChange slot (some f) st) =
          some (readAsDataURL f) ∧
        (handleFileChange slot (some f) st).error = none ∧
        (handleFileChange slot (some f) st).resultImageUrl =
          st.resultImageUrl ∧
        (handleFileChange slot (some f) st).isLoading = st.isLoading) ∧
    (f.size > 10 * 1024 * 1024 →
        handleFileChange slot (some f) st =
          { st with
              error := some "File size too large. Please use images smaller than 10MB." }) := by
  constructor
  · intro h
    have hcond : ¬(f.size > 10 * 1024 * 1024) := by omega
    cases slot <;> simp [handleFileChange, hcond, slotImage, slotPreview]
  · intro h
    simp [handleFileChange, h]

/-- Witness for C2 at a small accepted file. -/
theorem fileChange_size_boundary_witness :
    slotImage .user (handleFileChange .user (some ⟨"image/jpeg", [1, 2, 3]⟩)
      emptyState) = some ⟨"image/jpeg", [1, 2, 3]⟩ :=
  ((fileChange_size_boundary .user ⟨"image/jpeg", [1, 2, 3]⟩ emptyState).1
    (by decide)).1

/-- C5 (counterexample): with both slots holding zero-byte files, the
submit handler still issues the POST with those empty files; selection
is checked but size is not. -/
theorem submit_issues_request_for_zero_size_files :
    (handleSubmit (.response true "OK" none (some "img"))
        { emptyState with
            userImage := some ⟨"image/png", []⟩,
            clothingImage := some ⟨"image/png", []⟩ }).2 =
      some (⟨"image/png", []⟩, ⟨"image/png", []⟩) ∧
    FileModel.size ⟨"image/png", []⟩ = 0 :=
  ⟨rfl, rfl⟩

/-- C5 (amended): the submit handler issues the POST exactly when both
files are selected, submitting the selected pair; the files need not be
non-empty, since their sizes are never consulted at submission time. -/
theorem submit_request_iff_both_selected (o : FetchOutcome)
    (st : ClientState) :
    (handleSubmit o st).2 =
      (match st.userImage, st.clothingImage with
       | some u, some c => some (u, c)
       | _, _ => none) := by
  rcases st with ⟨su, sc, a, b, r, l, e⟩
  cases su <;> cases sc <;> simp [handleSubmit]

/-- C7: invoking the submit handler with either slot empty issues no
request and produces exactly the state with the fixed validation error
set; every other field (loading, result, previews, files) is unchanged. -/
theorem submit_guard_blocks_without_both_files (o : FetchOutcome)
    (st : ClientState)
    (h : st.userImage = none ∨ st.clothingImage = none) :
    handleSubmit o st =
      ({ st with
           error := some "Please upload both your photo and a clothing item image." },
       none) := by
  rcases st with ⟨su, sc, a, b, r, l, e⟩
  rcases h with h | h
  · simp only at h
    subst h
    simp [handleSubmit]
  · simp only at h
    subst h
    cases su <;> simp [handleSubmit]

/-- Witness for C7 at the initial (fully empty) state. -/
theorem submit_guard_blocks_without_both_files_witness :
    handleSubmit (.thrown true "network down") emptyState =
      ({ emptyState with
           error := some "Please upload both your photo and a clothing item image." },
       none) :=
  submit_guard_blocks_without_both_files _ emptyState (Or.inl rfl)

/-- C10 (counterexample): a guard-rejected run does not clear a stale
result: starting from a state with a previous result and no selected
files, the handler leaves the result displayed AND sets the validation
error, so the result URL and the error message are both non-null after a
completed run. -/
theorem submit_guard_keeps_stale_result :
    ((handleSubmit (.thrown true "ignored")
        { emptyState with
            resultImageUrl := some "data:image/png;base64,QUJD" }).1.resultImageUrl =
      some "data:image/png;base64,QUJD") ∧
    ((handleSubmit (.thrown true "ignored")
        { emptyState with
            resultImageUrl := some "data:image/png;base64,QUJD" }).1.error =
      some "Please upload both your photo and a clothing item image.") ∧
    ((handleSubmit (.thrown true "ignored")
        { emptyState with
            resultImageUrl := some "data:image/png;base64,QUJD" }).1.resultImageUrl ≠
      none) ∧
    ((handleSubmit (.thrown true "ignored")
        { emptyState with
            resultImageUrl := some "data:image/png;base64,QUJD" }).1.error ≠
      none) :=
  ⟨rfl, rfl, by decide, by decide⟩

/-- C10 (amended): after every completed run in which both files were
selected (the guard passed), the loading flag is false and exactly one
of result and error is set: a success stores the image with the error
null, any failure stores an error message with the result null.  A
guard-rejected run only sets the validation error and leaves loading and
the previous result unchanged. -/
theorem submit_post_run_invariant (o : FetchOutcome) (st : ClientState)
    (u c : FileModel) (hu : st.userImage = some u)
    (hc : st.clothingImage = some c) :
    (handleSubmit o st).1.isLoading = false ∧
    ((∃ img, (handleSubmit o st).1.resultImageUrl = some img) ∧
        (handleSubmit o st).1.error = none ∨
      (handleSubmit o st).1.resultImageUrl = none ∧
        ∃ msg, (handleSubmit o st).1.error = some msg) := by
  rcases st with ⟨su, sc, a, b, r, l, e⟩
  simp only at hu hc
  subst hu
  subst hc
  cases o with
  | thrown isErr msg => simp [handleSubmit]
  | response ok statusText errorField image =>
      cases ok with
      | false => simp [handleSubmit]
      | true =>
          cases himg : jsStr? image with
          | some img => simp [handleSubmit, himg]
          | none => simp [handleSubmit, himg]

/-- Witness for C10 at a successful run. -/
theorem submit_post_run_invariant_witness :
    (handleSubmit (.response true "OK" none (some "data:image/png;base64,QUJE"))
        { emptyState with
            userImage := some ⟨"image/png", [1]⟩,
            clothingImage := some ⟨"image/jpeg", [2]⟩ }).1.isLoading = false :=
  (submit_post_run_invariant _ _ ⟨"image/png", [1]⟩ ⟨"image/jpeg", [2]⟩
    rfl rfl).1

theorem sextetChar_ne_eq : ∀ n, n < 64 → sextetChar n ≠ '=' := by decide

theorem sextetOf_sextetChar : ∀ n, n < 64 → sextetOf (sextetChar n) = n := by
  decide

theorem base64_decode_encode :
    ∀ l : List Nat, (∀ b ∈ l, b < 256) →
      base64DecodeChars (base64EncodeChars l) = l
  | [], _ => rfl
  | [b0], h => by
      have hb0 : b0 < 256 := h b0 (by simp)
      show base64DecodeChars
          [sextetChar (b0 / 4), sextetChar ((b0 % 4) * 16), '=', '='] = [b0]
      simp only [base64DecodeChars]
      rw [if_pos trivial]
      rw [sextetOf_sextetChar _ (by omega), sextetOf_sextetChar _ (by omega)]
      simp only [List.cons.injEq, and_true]
      omega
  | [b0, b1], h => by
      have hb0 : b0 < 256 := h b0 (by simp)
      have hb1 : b1 < 256 := h b1 (by simp)
      show base64DecodeChars
          [sextetChar (b0 / 4), sextetChar ((b0 % 4) * 16 + b1 / 16),
           sextetChar ((b1 % 16) * 4), '='] = [b0, b1]
      simp only [base64DecodeChars]
      rw [if_neg (sextetChar_ne_eq _ (by omega))]
      rw [if_pos trivial]
      rw [sextetOf_sextetChar _ (by omega), sextetOf_sextetChar _ (by omega),
          sextetOf_sextetChar _ (by omega)]
      simp only [List.cons.injEq, eq_self_iff_true, and_true]
      omega
  | b0 :: b1 :: b2 :: rest, h => by
      have hb0 : b0 < 256 := h b0 (by simp)
      have hb1 : b1 < 256 := h b1 (by simp)
      have hb2 : b2 < 256 := h b2 (by simp)
      have ih := base64_decode_encode rest
        (fun b hb => h b (by simp [hb]))
      show base64DecodeChars
          (sextetChar (b0 / 4) :: sextetChar ((b0 % 4) * 16 + b1 / 16) ::
           sextetChar ((b1 % 16) * 4 + b2 / 64) :: sextetChar (b2 % 64) ::
           base64EncodeChars rest) = b0 :: b1 :: b2 :: rest
      simp only [base64DecodeChars]
      rw [if_neg (sextetChar_ne_eq _ (by omega))]
      rw [if_neg (sextetChar_ne_eq _ (by omega))]
      rw [sextetOf_sextetChar _ (by omega), sextetOf_sextetChar _ (by omega),
          sextetOf_sextetChar _ (by omega), sextetOf_sextetChar _ (by omega)]
      rw [ih]
      simp only [List.cons.injEq, eq_self_iff_true, and_true]
      omega

theorem char_toNat_ofNat (b : Nat) (h : b < 256) :
    (Char.ofNat b).toNat = b := by
  have hv : b.isValidChar := Or.inl (by omega)
  rw [Char.ofNat, dif_pos hv]
  rfl

theorem map_toNat_ofNat (l : List Nat) (h : ∀ b ∈ l, b < 256) :
    (l.map Char.ofNat).map Char.toNat = l := by
  induction l with
  | nil => rfl
  | cons a l ih =>
      simp only [List.map_cons]
      rw [char_toNat_ofNat a (h a (by simp)),
          ih (fun b hb => h b (by simp [hb]))]

/-- C8: on every byte buffer, `arrayBufferToBase64` (the char-by-char
binary string fed to `btoa`) agrees with the reference RFC 4648 base64
encoder, and decoding its output returns exactly the input bytes. -/
theorem arrayBufferToBase64_rfc4648 (buffer : List Nat)
    (h : ∀ b ∈ buffer, b < 256) :
    arrayBufferToBase64 buffer = base64Encode buffer ∧
    base64Decode (arrayBufferToBase64 buffer) = buffer := by
  have henc : arrayBufferToBase64 buffer = base64Encode buffer := by
    unfold arrayBufferToBase64 jsBtoa base64Encode
    rw [show (String.mk (buffer.map Char.ofNat)).toList = buffer.map Char.ofNat
          from rfl,
        map_toNat_ofNat buffer h]
  refine ⟨henc, ?_⟩
  rw [henc]
  unfold base64Decode base64Encode
  rw [show (String.mk (base64EncodeChars buffer)).toList =
        base64EncodeChars buffer from rfl]
  exact base64_decode_encode buffer h

/-- Witness for C8 on the three-byte buffer of RFC 4648's own example. -/
theorem arrayBufferToBase64_rfc4648_witness :
    base64Decode (arrayBufferToBase64 [77, 97, 110]) = [77, 97, 110] :=
  (arrayBufferToBase64_rfc4648 [77, 97, 110] (by decide)).2

end Tryon
